import Mathlib

/-!
Verification of the Linear-GitHub issue cross-reference engine.

This file gives a shallow embedding of the claim-relevant parts of the
repository (src/github_access.py, src/query_one_issue.py,
src/query_all_issues.py, src/env_config.py) and settles the frozen claims
about it.  Machine strings are Lean String values, Python dict access with a
default (d.get(k, v)) is modelled by Option fields read with getD, and the
two URL regular expressions are modelled by a deterministic maximal-munch
matcher, which is semantically exact for these patterns: every quantifier in
them ([^/]+ followed by a literal slash, and a trailing \d+) is forced, so
greedy matching admits no backtracking alternatives.
-/

namespace LGC

/-- Helper string constant: the empty string used as the Python default for
dict.get(key, "") accesses. -/
def blankS : String := ""

/-- ASCII lowercase of one character.  The source strings compared after
Python str.lower() are all ASCII, for which this agrees with Python. -/
def pyLowerChar (c : Char) : Char :=
  if 'A' ≤ c ∧ c ≤ 'Z' then Char.ofNat (c.toNat + 32) else c

/-- Model of Python str.lower() on the ASCII fragment the code compares. -/
def pyLower (s : String) : String := String.mk (s.data.map pyLowerChar)

/-! ## Data model

An Attachment mirrors one node of issue_data["attachments"]["nodes"]: the
code reads attachment.get("url", "") and attachment.get("title", ""), so a
missing key is modelled by an Option field.  An IssueData mirrors the Linear
issue dictionary: attachments = none models a record lacking the
"attachments" key (the code reads issue_data.get("attachments", {})
.get("nodes", [])); description : Option (Option String) distinguishes a
missing key (none) from an explicit null (some none), both of which the code
collapses to "" via issue_data.get("description", "") or "". -/

structure Attachment where
  url : Option String
  title : Option String
deriving DecidableEq

structure IssueData where
  identifier : String
  state_name : String
  title : String
  attachments : Option (List Attachment)
  description : Option (Option String)
deriving DecidableEq

/-! ## Regex model

The source uses exactly two patterns (src/query_one_issue.py lines 235-238,
src/github_access.py lines 161-163):

  github\.com/([^/]+/[^/]+)/issues/(\d+)
  github\.com/([^/]+/[^/]+)/pull/(\d+)

They differ only in the middle literal, so a pattern is represented by that
middle segment.  matchAt tries the pattern at the head of the text; because
each [^/]+ must be followed by a literal slash and the final \d+ ends the
pattern, the greedy runs are forced and maximal munch is exact. -/

def ghLit : List Char := "github.com/".data

def patIssues : List Char := "issues".data

def patPull : List Char := "pull".data

/-- Pattern list of extract_all_github_links (src/query_one_issue.py 235-238). -/
def github_patterns_one : List (List Char) := [patIssues, patPull]

/-- Pattern list of extract_first_attachment_github_link (src/github_access.py 161-163). -/
def github_patterns_first : List (List Char) := [patIssues]

/-- Maximal run of characters satisfying p, together with the rest. -/
def takeRun (p : Char → Bool) : List Char → List Char × List Char
  | [] => ([], [])
  | c :: rest =>
    if p c then
      let pr := takeRun p rest
      (c :: pr.1, pr.2)
    else ([], c :: rest)

/-- Numeric value of a digit string, as computed by Python int() on it. -/
def natOfDigits (ds : List Char) : Nat :=
  ds.foldl (fun a c => a * 10 + (c.toNat - 48)) 0

/-- Try the pattern at the head of s.  On success returns the repository
capture group, the numeric capture group, the whole matched substring
(match.group(0)) and the text remaining after the match. -/
def matchAt (mid : List Char) (s : List Char) : Option (String × Nat × String × List Char) :=
  if ghLit.isPrefixOf s then
    match takeRun (fun c => c != '/') (s.drop ghLit.length) with
    | ([], _) => none
    | (a1, r1) =>
      match r1 with
      | '/' :: r2 =>
        match takeRun (fun c => c != '/') r2 with
        | ([], _) => none
        | (a2, r3) =>
          match r3 with
          | '/' :: r4 =>
            if mid.isPrefixOf r4 then
              match r4.drop mid.length with
              | '/' :: r5 =>
                match takeRun Char.isDigit r5 with
                | ([], _) => none
                | (ds, r6) =>
                  some (String.mk (a1 ++ '/' :: a2),
                        natOfDigits ds,
                        String.mk (ghLit ++ a1 ++ '/' :: a2 ++ '/' :: mid ++ '/' :: ds),
                        r6)
              | _ => none
            else none
          | _ => none
      | _ => none
  else none

/-- Model of re.search: leftmost match of the pattern in the text. -/
def searchCore (mid : List Char) : List Char → Option (String × Nat × String)
  | [] => none
  | c :: rest =>
    match matchAt mid (c :: rest) with
    | some (r, n, g, _) => some (r, n, g)
    | none => searchCore mid rest

def searchS (mid : List Char) (s : String) : Option (String × Nat × String) :=
  searchCore mid s.data

/-- Model of re.finditer: all non-overlapping matches, scanning left to
right and resuming after each match.  The fuel argument only establishes
termination; finditerS passes the text length, which always suffices since
every step consumes at least one character. -/
def finditerCore (mid : List Char) : List Char → Nat → List (String × Nat × String)
  | _, 0 => []
  | [], _ => []
  | c :: rest, fuel + 1 =>
    match matchAt mid (c :: rest) with
    | some (r, n, g, rem) => (r, n, g) :: finditerCore mid rem fuel
    | none => finditerCore mid rest fuel

def finditerS (mid : List Char) (s : String) : List (String × Nat × String) :=
  finditerCore mid s.data s.data.length

/-! ## Link extraction (src/query_one_issue.py 233-271, src/github_access.py 157-179) -/

/-- Matches of all patterns against one attachment URL, with the URL itself
as provenance (src/query_one_issue.py 244-253). -/
def attachmentUrlLinks (a : Attachment) : List (String × Nat × String) :=
  github_patterns_one.filterMap (fun p =>
    (searchS p (a.url.getD blankS)).map (fun m => (m.1, m.2.1, a.url.getD blankS)))

/-- Matches of all patterns against one attachment title
(src/query_one_issue.py 255-261). -/
def attachmentTitleLinks (a : Attachment) : List (String × Nat × String) :=
  github_patterns_one.filterMap (fun p =>
    (searchS p (a.title.getD blankS)).map (fun m =>
      (m.1, m.2.1, "title: " ++ a.title.getD blankS)))

/-- The description text, mirroring issue_data.get("description", "") or ""
(src/query_one_issue.py 264): a missing key and an explicit null both give
the empty string. -/
def descriptionText (d : IssueData) : String :=
  match d.description with
  | some (some s) => s
  | _ => blankS

/-- Matches of all patterns inside the description via finditer, with the
matched substring as provenance (src/query_one_issue.py 264-269). -/
def descriptionLinks (d : IssueData) : List (String × Nat × String) :=
  github_patterns_one.flatMap (fun p =>
    (finditerS p (descriptionText d)).map (fun m =>
      (m.1, m.2.1, "description: " ++ m.2.2)))

/-- Embedding of extract_all_github_links (src/query_one_issue.py 233-271):
per attachment the URL matches then the title matches, then all description
matches.  No deduplication is performed anywhere in the function. -/
def extract_all_github_links (d : IssueData) : List (String × Nat × String) :=
  (d.attachments.getD []).flatMap (fun a => attachmentUrlLinks a ++ attachmentTitleLinks a)
    ++ descriptionLinks d

/-- Embedding of extract_first_attachment_github_link (src/github_access.py
157-179): returns the first attachment URL match of the single issues
pattern, or none. -/
def extract_first_attachment_github_link (d : IssueData) : Option (String × Nat × String) :=
  (d.attachments.getD []).findSome? (fun a =>
    github_patterns_first.findSome? (fun p =>
      (searchS p (a.url.getD blankS)).map (fun m => (m.1, m.2.1, a.url.getD blankS))))

/-- The dedup property claimed of a candidate-link list: no two entries
share the (repository, number) pair. -/
def pairsDistinct : List (String × Nat × String) → Bool
  | [] => true
  | x :: xs => (xs.all (fun y => !(x.1 == y.1 && x.2.1 == y.2.1))) && pairsDistinct xs

/-- Record whose description mentions the same GitHub issue twice. -/
def c1CexIssue : IssueData :=
  ⟨"MOCO-1", "Todo", "t", none,
   some (some ("github.com/a/b/issues/1 github.com/a/b/issues/1"))⟩

example : extract_all_github_links c1CexIssue =
    [("a/b", 1, "description: github.com/a/b/issues/1"),
     ("a/b", 1, "description: github.com/a/b/issues/1")] := by decide

/-- C1 counterexample: the all-matches extraction mode does not deduplicate.
On a record whose description contains the same issue link twice,
extract_all_github_links returns two entries with the identical
(repository, number) pair, refuting the claimed invariant for that mode. -/
theorem c1_counterexample :
    pairsDistinct (extract_all_github_links c1CexIssue) = false := by decide

/-- C1 (amended): the bulk first-attachment extraction mode yields at most
one CandidateLink, hence its candidate sequence never contains two entries
with the same (repository, number) pair; the all-matches mode does not
deduplicate (see the counterexample). -/
theorem c1_theorem (d : IssueData) :
    pairsDistinct (extract_first_attachment_github_link d).toList = true := by
  cases h : extract_first_attachment_github_link d <;> simp [pairsDistinct]

/-- If findSome? succeeds, some list element produced the value. -/
lemma exists_of_findSomeEq {α β : Type} (f : α → Option β) :
    ∀ (l : List α) (b : β), l.findSome? f = some b → ∃ a, a ∈ l ∧ f a = some b := by
  intro l
  induction l with
  | nil => intro b h; simp [List.findSome?] at h
  | cons x xs ih =>
    intro b h
    rw [List.findSome?_cons] at h
    cases hx : f x with
    | some v =>
      rw [hx] at h
      have hv : some v = some b := h
      exact ⟨x, List.mem_cons_self x xs, hx.trans hv⟩
    | none =>
      rw [hx] at h
      obtain ⟨a, ha, hfa⟩ := ih b h
      exact ⟨a, List.mem_cons_of_mem x ha, hfa⟩

/-- findSome? over a one-element list is just the function applied. -/
lemma findSome_singleton {α β : Type} (f : α → Option β) (a : α) :
    [a].findSome? f = f a := by
  rw [List.findSome?_cons]
  cases f a <;> simp

/-- Record with a single pull-request attachment link. -/
def c7CexIssue : IssueData :=
  ⟨"MOCO-2", "Todo", "t",
   some [⟨some ("https://github.com/a/b/pull/7"), none⟩], none⟩

/-- C7 counterexample: the two extraction modes do not use the same set of
URL-shape patterns.  A pull-request URL is matched by the all-matches mode
(whose pattern list also has the pull pattern) but not by the bulk
first-attachment mode (whose pattern list has only the issues pattern). -/
theorem c7_counterexample :
    extract_first_attachment_github_link c7CexIssue = none ∧
    extract_all_github_links c7CexIssue =
      [("a/b", 7, "https://github.com/a/b/pull/7")] := by decide

/-- C7 (amended): the sharing holds in one direction only.  The bulk mode
pattern list is contained in the all-matches pattern list, and consequently
every link the bulk mode extracts from a record is also extracted by the
all-matches mode; the converse fails because the all-matches mode
additionally matches pull-request URLs (see the counterexample). -/
theorem c7_theorem :
    (∀ p, p ∈ github_patterns_first → p ∈ github_patterns_one) ∧
    (∀ (d : IssueData) (r : String × Nat × String),
      extract_first_attachment_github_link d = some r →
        r ∈ extract_all_github_links d) := by
  constructor
  · intro p hp
    simp only [github_patterns_first, List.mem_singleton] at hp
    simp [github_patterns_one, hp]
  · intro d r h
    unfold extract_first_attachment_github_link at h
    obtain ⟨a, ha, hfa⟩ := exists_of_findSomeEq _ _ _ h
    simp only [github_patterns_first] at hfa
    rw [findSome_singleton] at hfa
    cases hs : searchS patIssues (a.url.getD blankS) with
    | none => rw [hs] at hfa; simp at hfa
    | some m =>
      rw [hs] at hfa
      have hsome : some (m.1, m.2.1, a.url.getD blankS) = some r := hfa
      have hr : r = (m.1, m.2.1, a.url.getD blankS) := (Option.some.inj hsome).symm
      unfold extract_all_github_links
      apply List.mem_append_left
      apply List.mem_flatMap.mpr
      refine ⟨a, ha, ?_⟩
      apply List.mem_append_left
      unfold attachmentUrlLinks
      apply List.mem_filterMap.mpr
      refine ⟨patIssues, by simp [github_patterns_one], ?_⟩
      rw [hs, hr]
      rfl

/-- Record used by the C7 witness: one issues-URL attachment. -/
def c7WitIssue : IssueData :=
  ⟨"MOCO-3", "Todo", "t",
   some [⟨some ("https://github.com/a/b/issues/5"), none⟩], none⟩

/-- C7 witness: instantiates both halves of the amended theorem on concrete
inputs. -/
theorem c7_witness :
    patIssues ∈ github_patterns_one ∧
    ("a/b", (5 : Nat), "https://github.com/a/b/issues/5") ∈
      extract_all_github_links c7WitIssue :=
  ⟨c7_theorem.1 patIssues (by decide),
   c7_theorem.2 c7WitIssue ("a/b", (5 : Nat), "https://github.com/a/b/issues/5") (by decide)⟩

/-- C10: both link-extraction functions are total on missing or null fields
and return the empty result there.  For every record whose attachments (if
any) all lack both the url and the title key and whose description is
missing or null, extract_all_github_links returns the empty list and
extract_first_attachment_github_link returns none; no field access can
fail because every dict read in the source uses a default. -/
theorem c10_theorem (d : IssueData)
    (hatt : ∀ a ∈ d.attachments.getD [], a.url = none ∧ a.title = none)
    (hdesc : d.description = none ∨ d.description = some none) :
    extract_all_github_links d = [] ∧
    extract_first_attachment_github_link d = none := by
  have hdtext : descriptionText d = blankS := by
    rcases hdesc with h | h <;> simp [descriptionText, h]
  constructor
  · unfold extract_all_github_links
    have h1 : (d.attachments.getD []).flatMap
        (fun a => attachmentUrlLinks a ++ attachmentTitleLinks a) = [] := by
      apply List.flatMap_eq_nil_iff.mpr
      intro a ha
      obtain ⟨hu, ht⟩ := hatt a ha
      simp [attachmentUrlLinks, attachmentTitleLinks, hu, ht, searchS,
        github_patterns_one, blankS, searchCore, List.filterMap]
    have h2 : descriptionLinks d = [] := by
      simp [descriptionLinks, hdtext, finditerS, blankS, finditerCore,
        github_patterns_one]
    rw [h1, h2]
    rfl
  · unfold extract_first_attachment_github_link
    apply List.findSome?_eq_none_iff.mpr
    intro a ha
    obtain ⟨hu, _⟩ := hatt a ha
    simp [github_patterns_first, hu, searchS, blankS, searchCore]

/-- Record with one fully blank attachment and a null description. -/
def c10WitIssue : IssueData :=
  ⟨"MOCO-4", "Todo", "t", some [⟨none, none⟩], some none⟩

/-- C10 witness: the totality theorem applied to a concrete degenerate
record. -/
theorem c10_witness :
    extract_all_github_links c10WitIssue = [] ∧
    extract_first_attachment_github_link c10WitIssue = none :=
  c10_theorem c10WitIssue (by decide) (by decide)

/-! ## Secondary resolver (src/github_access.py)

get_issue_details is modelled as a pure loop over an oracle respond : Nat →
response giving the transport result of each attempt.  The run records the
returned details, the outcome string, the number of requests performed and
the list of sleep durations, in order, so that the retry and backoff claims
are statements about the run value. -/

inductive Outcome where
  | success
  | not_found
  | rate_limited
  | error
deriving DecidableEq

structure ResolveRun (α : Type) where
  details : Option α
  outcome : Outcome
  attempts : Nat
  sleeps : List Nat
deriving DecidableEq

/-- Parsed JSON body of a REST response, holding the five fields the code
reads with data.get (src/github_access.py 61-67). -/
structure RestJson where
  id : Option Int
  number : Option Int
  title : Option String
  state : Option String
  html_url : Option String
deriving DecidableEq

/-- One REST attempt either yields a response with a status code and body,
or raises a requests.RequestException (which also covers the JSON decode
error raised from response.json()). -/
inductive RestResp where
  | resp (code : Nat) (body : RestJson)
  | exn
deriving DecidableEq

/-- Loop body of GitHubAPIRest.get_issue_details (src/github_access.py
45-75).  The fuel argument counts the remaining iterations of
range(max_retries), so it starts equal to max_retries and the running
attempt index is max_retries minus fuel; exhausting it is the fall-through
return None, 'error' after the loop. -/
def restAttempts (respond : Nat → RestResp) (m : Nat) :
    Nat → List Nat → Nat → ResolveRun RestJson
  | attempt, sleeps, 0 => ⟨none, Outcome.error, attempt, sleeps⟩
  | attempt, sleeps, fuel + 1 =>
    match respond attempt with
    | RestResp.resp code body =>
      if code = 404 then ⟨none, Outcome.not_found, attempt + 1, sleeps⟩
      else if code = 403 then
        if attempt < m - 1 then
          restAttempts respond m (attempt + 1) (sleeps ++ [(attempt + 1) * 5]) fuel
        else ⟨none, Outcome.rate_limited, attempt + 1, sleeps⟩
      else if 400 ≤ code ∧ code < 600 then
        if attempt < m - 1 then
          restAttempts respond m (attempt + 1) (sleeps ++ [2]) fuel
        else ⟨none, Outcome.error, attempt + 1, sleeps⟩
      else ⟨some body, Outcome.success, attempt + 1, sleeps⟩
    | RestResp.exn =>
      if attempt < m - 1 then
        restAttempts respond m (attempt + 1) (sleeps ++ [2]) fuel
      else ⟨none, Outcome.error, attempt + 1, sleeps⟩

/-- GitHubAPIRest.get_issue_details (src/github_access.py 38-75), default
max_retries = 2. -/
def get_issue_details_rest (respond : Nat → RestResp) (max_retries : Nat) :
    ResolveRun RestJson :=
  restAttempts respond max_retries 0 [] max_retries

/-- Parsed JSON printed by the gh CLI (src/github_access.py 104-113). -/
structure CliJson where
  id : Option String
  number : Option Int
  title : Option String
  state : Option String
  url : Option String
deriving DecidableEq

/-- Issue-details dict built from a successful CLI response
(src/github_access.py 106-114): the state is lowercased. -/
structure CliDetails where
  id : Option String
  number : Option Int
  title : Option String
  state : String
  html_url : Option String
deriving DecidableEq

def cliDetailsOfJson (j : CliJson) : CliDetails :=
  ⟨j.id, j.number, j.title, pyLower (j.state.getD blankS), j.url⟩

/-- One CLI attempt: a completed subprocess with return code, parsed stdout
JSON (none when json.loads raises) and stderr text, or a timeout, or any
other exception. -/
inductive CliResp where
  | completed (returncode : Int) (stdoutJson : Option CliJson) (stderr : String)
  | timeout
  | exn
deriving DecidableEq

/-- Substring test, modelling the Python in operator on strings. -/
def strContainsSub (needle : List Char) : List Char → Bool
  | [] => needle.isEmpty
  | c :: rest => needle.isPrefixOf (c :: rest) || strContainsSub needle rest

def notFoundLit : String := "not found"

def couldNotResolveLit : String := "could not resolve"

def rateLimitLit : String := "rate limit"

/-- Test applied to stderr at src/github_access.py line 121. -/
def stderrNotFound (s : String) : Bool :=
  strContainsSub notFoundLit.data (pyLower s).data ||
    strContainsSub couldNotResolveLit.data (pyLower s).data

/-- Test applied to stderr at src/github_access.py line 124. -/
def stderrRateLimit (s : String) : Bool :=
  strContainsSub rateLimitLit.data (pyLower s).data

/-- Loop body of GitHubAPI.get_issue_details, the gh CLI version
(src/github_access.py 89-154), with the same fuel convention as
restAttempts. -/
def cliAttempts (respond : Nat → CliResp) (m : Nat) :
    Nat → List Nat → Nat → ResolveRun CliDetails
  | attempt, sleeps, 0 => ⟨none, Outcome.error, attempt, sleeps⟩
  | attempt, sleeps, fuel + 1 =>
    match respond attempt with
    | CliResp.completed rc json stderr =>
      if rc = 0 then
        match json with
        | some j => ⟨some (cliDetailsOfJson j), Outcome.success, attempt + 1, sleeps⟩
        | none =>
          if attempt < m - 1 then
            cliAttempts respond m (attempt + 1) (sleeps ++ [2]) fuel
          else ⟨none, Outcome.error, attempt + 1, sleeps⟩
      else if stderrNotFound stderr then ⟨none, Outcome.not_found, attempt + 1, sleeps⟩
      else if stderrRateLimit stderr ∨ rc = 22 then
        if attempt < m - 1 then
          cliAttempts respond m (attempt + 1) (sleeps ++ [(attempt + 1) * 10]) fuel
        else ⟨none, Outcome.rate_limited, attempt + 1, sleeps⟩
      else
        if attempt < m - 1 then
          cliAttempts respond m (attempt + 1) (sleeps ++ [2]) fuel
        else ⟨none, Outcome.error, attempt + 1, sleeps⟩
    | CliResp.timeout =>
      if attempt < m - 1 then
        cliAttempts respond m (attempt + 1) (sleeps ++ [2]) fuel
      else ⟨none, Outcome.error, attempt + 1, sleeps⟩
    | CliResp.exn =>
      if attempt < m - 1 then
        cliAttempts respond m (attempt + 1) (sleeps ++ [2]) fuel
      else ⟨none, Outcome.error, attempt + 1, sleeps⟩

/-- GitHubAPI.get_issue_details (src/github_access.py 85-154), default
max_retries = 2. -/
def get_issue_details_cli (respond : Nat → CliResp) (max_retries : Nat) :
    ResolveRun CliDetails :=
  cliAttempts respond max_retries 0 [] max_retries

/-- The response is a 404 (src/github_access.py 49). -/
def restIs404 : RestResp → Prop
  | RestResp.resp code _ => code = 404
  | RestResp.exn => False

/-- The response is a 403 rate-limit response (src/github_access.py 51). -/
def restIsRateLimited : RestResp → Prop
  | RestResp.resp code _ => code = 403
  | RestResp.exn => False

/-- The CLI response is 404-equivalent: nonzero return code and a not-found
marker on stderr (src/github_access.py 121). -/
def cliIsNotFound : CliResp → Prop
  | CliResp.completed rc _ stderr => rc ≠ 0 ∧ stderrNotFound stderr = true
  | _ => False

/-- The CLI response reports rate limiting (src/github_access.py 124). -/
def cliIsRateLimited : CliResp → Prop
  | CliResp.completed rc _ stderr =>
      rc ≠ 0 ∧ stderrNotFound stderr = false ∧
        (stderrRateLimit stderr = true ∨ rc = 22)
  | _ => False

/-- C3: in both resolver implementations a 404-equivalent first response is
terminal: the run returns absent details with outcome not_found after
exactly one attempt and with no backoff sleep, for every positive retry
bound. -/
theorem c3_theorem (respondR : Nat → RestResp) (respondC : Nat → CliResp)
    (m : Nat) (hm : 0 < m) :
    (restIs404 (respondR 0) →
      get_issue_details_rest respondR m = ⟨none, Outcome.not_found, 1, []⟩) ∧
    (cliIsNotFound (respondC 0) →
      get_issue_details_cli respondC m = ⟨none, Outcome.not_found, 1, []⟩) := by
  obtain ⟨fuel, rfl⟩ : ∃ fuel, m = fuel + 1 :=
    ⟨m - 1, (Nat.succ_pred_eq_of_pos hm).symm⟩
  constructor
  · intro h404
    unfold get_issue_details_rest
    rw [restAttempts]
    cases hr : respondR 0 with
    | exn => rw [hr] at h404; exact absurd h404 (by simp [restIs404])
    | resp code body =>
      rw [hr] at h404
      have hcode : code = 404 := h404
      subst hcode
      simp
  · intro hnf
    unfold get_issue_details_cli
    rw [cliAttempts]
    cases hr : respondC 0 with
    | timeout => rw [hr] at hnf; exact absurd hnf (by simp [cliIsNotFound])
    | exn => rw [hr] at hnf; exact absurd hnf (by simp [cliIsNotFound])
    | completed rc json stderr =>
      rw [hr] at hnf
      obtain ⟨hrc, hnfs⟩ := hnf
      simp [hrc, hnfs]

/-- Oracles for the C3 witness: a constant REST 404 and a constant CLI
could-not-resolve failure. -/
def c3R : Nat → RestResp := fun _ => RestResp.resp 404 ⟨none, none, none, none, none⟩

def c3C : Nat → CliResp := fun _ =>
  CliResp.completed 1 none ("GraphQL: Could not resolve to an Issue (repository level)")

/-- C3 witness: the theorem applied at the default retry bound 2. -/
theorem c3_witness :
    get_issue_details_rest c3R 2 = ⟨none, Outcome.not_found, 1, []⟩ ∧
    get_issue_details_cli c3C 2 = ⟨none, Outcome.not_found, 1, []⟩ := by
  have h := c3_theorem c3R c3C 2 (by decide)
  exact ⟨h.1 rfl, h.2 ⟨by decide, by decide⟩⟩

/-- REST loop under an always-rate-limited oracle: every remaining
iteration sleeps (attempt + 1) * 5 and retries, and the loop ends with
rate_limited after the last allowed attempt. -/
lemma restAttempts_rl (respond : Nat → RestResp) (m : Nat)
    (h : ∀ i, restIsRateLimited (respond i)) :
    ∀ (fuel : Nat) (attempt : Nat) (sleeps : List Nat),
      attempt + fuel = m → 0 < fuel →
      restAttempts respond m attempt sleeps fuel =
        ⟨none, Outcome.rate_limited, m,
         sleeps ++ (List.range' (attempt + 1) (fuel - 1)).map (fun w => w * 5)⟩ := by
  intro fuel
  induction fuel with
  | zero => intro attempt sleeps _ hpos; omega
  | succ f ih =>
    intro attempt sleeps hsum _
    rw [restAttempts]
    cases hr : respond attempt with
    | exn =>
      have := h attempt
      rw [hr] at this
      exact this.elim
    | resp code body =>
      have hc : code = 403 := by
        have := h attempt
        rw [hr] at this
        exact this
      subst hc
      by_cases hlt : attempt < m - 1
      · have hf : 0 < f := by omega
        obtain ⟨g, rfl⟩ : ∃ g, f = g + 1 := ⟨f - 1, by omega⟩
        have hrec := ih (attempt + 1) (sleeps ++ [(attempt + 1) * 5]) (by omega) hf
        simp [hlt, hrec, List.range'_succ, List.append_assoc]
      · have hf : f = 0 := by omega
        subst hf
        have ha : attempt + 1 = m := by omega
        simp [hlt, ha]

/-- CLI loop under an always-rate-limited oracle: every remaining iteration
sleeps (attempt + 1) * 10 and retries, and the loop ends with rate_limited
after the last allowed attempt. -/
lemma cliAttempts_rl (respond : Nat → CliResp) (m : Nat)
    (h : ∀ i, cliIsRateLimited (respond i)) :
    ∀ (fuel : Nat) (attempt : Nat) (sleeps : List Nat),
      attempt + fuel = m → 0 < fuel →
      cliAttempts respond m attempt sleeps fuel =
        ⟨none, Outcome.rate_limited, m,
         sleeps ++ (List.range' (attempt + 1) (fuel - 1)).map (fun w => w * 10)⟩ := by
  intro fuel
  induction fuel with
  | zero => intro attempt sleeps _ hpos; omega
  | succ f ih =>
    intro attempt sleeps hsum _
    rw [cliAttempts]
    cases hr : respond attempt with
    | timeout =>
      have := h attempt
      rw [hr] at this
      exact this.elim
    | exn =>
      have := h attempt
      rw [hr] at this
      exact this.elim
    | completed rc json stderr =>
      have hprops := h attempt
      rw [hr] at hprops
      obtain ⟨hrc, hnf, hrl⟩ := hprops
      by_cases hlt : attempt < m - 1
      · have hf : 0 < f := by omega
        obtain ⟨g, rfl⟩ : ∃ g, f = g + 1 := ⟨f - 1, by omega⟩
        have hrec := ih (attempt + 1) (sleeps ++ [(attempt + 1) * 10]) (by omega) hf
        simp [hrc, hnf, hrl, hlt, hrec, List.range'_succ, List.append_assoc]
      · have hf : f = 0 := by omega
        subst hf
        have ha : attempt + 1 = m := by omega
        simp [hrc, hnf, hrl, hlt, ha]

/-- C4: for every target rate-limited on every attempt and every positive
retry bound m, both resolver implementations perform exactly m attempts,
sleep base multiplied by the one-based attempt index before each retry
(base 5 for the REST client, base 10 for the CLI client), produce a
strictly increasing sleep sequence, and return rate_limited with absent
details after exhausting the attempts. -/
theorem c4_theorem (respondR : Nat → RestResp) (respondC : Nat → CliResp)
    (m : Nat) (hm : 0 < m)
    (hR : ∀ i, restIsRateLimited (respondR i))
    (hC : ∀ i, cliIsRateLimited (respondC i)) :
    get_issue_details_rest respondR m =
      ⟨none, Outcome.rate_limited, m, (List.range' 1 (m - 1)).map (fun w => w * 5)⟩ ∧
    get_issue_details_cli respondC m =
      ⟨none, Outcome.rate_limited, m, (List.range' 1 (m - 1)).map (fun w => w * 10)⟩ ∧
    ((List.range' 1 (m - 1)).map (fun w => w * 5)).Pairwise (· < ·) ∧
    ((List.range' 1 (m - 1)).map (fun w => w * 10)).Pairwise (· < ·) := by
  refine ⟨?_, ?_, ?_, ?_⟩
  · have := restAttempts_rl respondR m hR m 0 [] (by omega) hm
    simpa using this
  · have := cliAttempts_rl respondC m hC m 0 [] (by omega) hm
    simpa using this
  · apply List.Pairwise.map
    · intro a b hab
      exact Nat.mul_lt_mul_of_lt_of_le hab (Nat.le_refl 5) (by omega)
    · exact List.pairwise_lt_range' 1 (m - 1)
  · apply List.Pairwise.map
    · intro a b hab
      exact Nat.mul_lt_mul_of_lt_of_le hab (Nat.le_refl 10) (by omega)
    · exact List.pairwise_lt_range' 1 (m - 1)

/-- Oracles for the C4 witness: a constant REST 403 and a constant CLI
rate-limit failure. -/
def c4R : Nat → RestResp := fun _ => RestResp.resp 403 ⟨none, none, none, none, none⟩

def c4C : Nat → CliResp := fun _ =>
  CliResp.completed 1 none ("API rate limit exceeded for installation")

/-- C4 witness: the theorem applied at the default retry bound 2, where the
single backoff sleep is 5 seconds for REST and 10 seconds for the CLI. -/
theorem c4_witness :
    get_issue_details_rest c4R 2 = ⟨none, Outcome.rate_limited, 2, [5]⟩ ∧
    get_issue_details_cli c4C 2 = ⟨none, Outcome.rate_limited, 2, [10]⟩ := by
  have h := c4_theorem c4R c4C 2 (by decide) (fun _ => rfl)
    (fun _ => ⟨by decide, by decide, Or.inl (by decide)⟩)
  exact ⟨h.1.trans (by decide), h.2.1.trans (by decide)⟩

/-! ## Dispatch and collect (src/query_all_issues.py 500-562)

Phase 1 of main builds one task tuple per Linear issue with a mirrored
GitHub link; phase 2 submits every task to a thread pool and iterates over
as_completed.  The loop is modelled as a fold over the completion order, a
list of task indices; the concurrency guarantee of the executor (every
submitted future completes and is yielded exactly once) is the hypothesis
that the order is a permutation of the task indices.  The trace field
records the loop body observations, one (index, result) entry per processed
future. -/

/-- One element of github_tasks (src/query_all_issues.py 514). -/
structure GithubTask where
  linear_id : String
  linear_status : String
  linear_title : String
  repo : String
  issue_number : Nat
  source : String
deriving DecidableEq

/-- One table row (src/query_all_issues.py 302). -/
structure Row where
  linear_id : String
  linear_status : String
  linear_title : String
  gh_number : String
  gh_status : String
  gh_title : String
  repo : String
deriving DecidableEq

/-- Value of future.result() for one task: either the (table_row, status)
pair returned by process_github_link, or an exception raised while
resolving the link. -/
inductive TaskRes where
  | res (row : Option Row) (status : Outcome)
  | exn (msg : String)
deriving DecidableEq

def dummyTask : GithubTask := ⟨blankS, blankS, blankS, blankS, 0, blankS⟩

/-- The diagnostic entry appended to error_reports for one processed future
(src/query_all_issues.py 547-556); none exactly for a success outcome. -/
def diagOfTask (t : GithubTask) : TaskRes → Option String
  | TaskRes.res _ Outcome.rate_limited =>
      some ("RATE LIMITED: " ++ t.linear_id ++ " → " ++ t.repo ++ "#" ++
        toString t.issue_number ++ " (after retries)")
  | TaskRes.res _ Outcome.not_found =>
      some ("NOT FOUND: " ++ t.linear_id ++ " → " ++ t.repo ++ "#" ++
        toString t.issue_number ++ " (GitHub issue does not exist)")
  | TaskRes.res _ Outcome.error =>
      some ("ERROR: " ++ t.linear_id ++ " → " ++ t.repo ++ "#" ++
        toString t.issue_number ++ " (network/API error)")
  | TaskRes.res _ Outcome.success => none
  | TaskRes.exn e =>
      some ("EXCEPTION: " ++ t.linear_id ++ " → " ++ t.repo ++ "#" ++
        toString t.issue_number ++ " (Python error: " ++ e ++ ")")

/-- The row appended to table_rows for one processed future: only a success
outcome carrying a truthy table_row is appended
(src/query_all_issues.py 545-546). -/
def rowOfRes : TaskRes → Option Row
  | TaskRes.res (some r) Outcome.success => some r
  | _ => none

/-- Whether the processed future increments rate_limit_hits
(src/query_all_issues.py 547-548). -/
def rlHit : TaskRes → Bool
  | TaskRes.res _ Outcome.rate_limited => true
  | _ => false

structure CollectState where
  table_rows : List Row
  rate_limit_hits : Nat
  processed_count : Nat
  error_reports : List String
  trace : List (Nat × TaskRes)
deriving DecidableEq

/-- Body of the as_completed loop (src/query_all_issues.py 538-560) for the
future of task index i. -/
def collectStep (results : Nat → TaskRes) (tasks : List GithubTask)
    (st : CollectState) (i : Nat) : CollectState :=
  let t := tasks.getD i dummyTask
  let r := results i
  ⟨st.table_rows ++ (rowOfRes r).toList,
   st.rate_limit_hits + (if rlHit r then 1 else 0),
   st.processed_count + 1,
   st.error_reports ++ (diagOfTask t r).toList,
   st.trace ++ [(i, r)]⟩

/-- The whole dispatch-and-collect phase: fold the loop body over the
completion order. -/
def collectLoop (tasks : List GithubTask) (results : Nat → TaskRes)
    (order : List Nat) : CollectState :=
  order.foldl (collectStep results tasks) ⟨[], 0, 0, [], []⟩

/-- Closed form of the collect fold from an arbitrary starting state. -/
lemma collect_fields (tasks : List GithubTask) (results : Nat → TaskRes) :
    ∀ (order : List Nat) (st : CollectState),
      order.foldl (collectStep results tasks) st =
        ⟨st.table_rows ++ order.filterMap (fun i => rowOfRes (results i)),
         st.rate_limit_hits + (order.filter (fun i => rlHit (results i))).length,
         st.processed_count + order.length,
         st.error_reports ++
           order.filterMap (fun i => diagOfTask (tasks.getD i dummyTask) (results i)),
         st.trace ++ order.map (fun i => (i, results i))⟩ := by
  intro order
  induction order with
  | nil => intro st; cases st; simp
  | cons i rest ih =>
    intro st
    rw [List.foldl_cons, ih]
    simp only [collectStep, List.filterMap_cons, List.filter_cons, List.map_cons,
      List.length_cons]
    cases hrow : rowOfRes (results i) <;>
      cases hdiag : diagOfTask (tasks.getD i dummyTask) (results i) <;>
      cases hhit : rlHit (results i) <;>
      simp [List.append_assoc] <;> omega

/-- Length of a filterMap equals the count of inputs mapped to some. -/
lemma length_filterMap_eq {α β : Type} (f : α → Option β) :
    ∀ l : List α, (l.filterMap f).length = (l.filter (fun a => (f a).isSome)).length := by
  intro l
  induction l with
  | nil => rfl
  | cons x xs ih =>
    rw [List.filterMap_cons, List.filter_cons]
    cases hx : f x <;> simp [hx, ih]

/-- Mapping first projection over index pairing is the identity. -/
lemma map_fst_pairing {β : Type} (g : Nat → β) :
    ∀ l : List Nat, List.map (Prod.fst ∘ fun i => (i, g i)) l = l := by
  intro l
  induction l with
  | nil => rfl
  | cons j rest ihm => simp [Function.comp, ihm]

/-- C2: whenever the executor yields every submitted future exactly once
(the completion order is a permutation of the task indices), the collect
loop processes exactly one (pair, result, outcome) triple per input pair —
N triples for N tasks, whatever the completion order — each non-success
outcome contributes exactly one diagnostic entry, only success outcomes are
appended to the result rows, and no individual failure removes or aborts
any sibling triple. -/
theorem c2_theorem (tasks : List GithubTask) (results : Nat → TaskRes)
    (order : List Nat) (hperm : order.Perm (List.range tasks.length)) :
    (collectLoop tasks results order).processed_count = tasks.length ∧
    (collectLoop tasks results order).trace = order.map (fun i => (i, results i)) ∧
    ((collectLoop tasks results order).trace.map Prod.fst).Perm
      (List.range tasks.length) ∧
    (collectLoop tasks results order).table_rows =
      order.filterMap (fun i => rowOfRes (results i)) ∧
    (collectLoop tasks results order).error_reports =
      order.filterMap (fun i => diagOfTask (tasks.getD i dummyTask) (results i)) ∧
    (collectLoop tasks results order).error_reports.length =
      ((List.range tasks.length).filter
        (fun i => (diagOfTask (tasks.getD i dummyTask) (results i)).isSome)).length := by
  have hfields := collect_fields tasks results order ⟨[], 0, 0, [], []⟩
  unfold collectLoop
  rw [hfields]
  refine ⟨by simpa using hperm.length_eq, by simp, ?_, by simp, by simp, ?_⟩
  · simpa [map_fst_pairing] using hperm
  · have hlen := length_filterMap_eq
      (fun i => diagOfTask (tasks.getD i dummyTask) (results i)) order
    have hflt := (hperm.filter
      (fun i => (diagOfTask (tasks.getD i dummyTask) (results i)).isSome)).length_eq
    show ([] ++ order.filterMap
        (fun i => diagOfTask (tasks.getD i dummyTask) (results i))).length =
      ((List.range tasks.length).filter
        (fun i => (diagOfTask (tasks.getD i dummyTask) (results i)).isSome)).length
    rw [List.nil_append, hlen]
    exact hflt

/-- Concrete inputs for the C2 witness: three tasks with a success, a
not-found and an exception, completing out of order. -/
def c2task (k : Nat) : GithubTask := ⟨"MOCO-" ++ toString k, "Todo", "t", "o/r", k, "u"⟩

def c2tasks : List GithubTask := [c2task 1, c2task 2, c2task 3]

def c2row : Row := ⟨"MOCO-1", "Todo", "t", "1", "open", "g", "o/r"⟩

def c2results : Nat → TaskRes := fun i =>
  [TaskRes.res (some c2row) Outcome.success,
   TaskRes.res none Outcome.not_found,
   TaskRes.exn ("boom")].getD i (TaskRes.res none Outcome.error)

def c2order : List Nat := [2, 0, 1]

/-- C2 witness: the theorem applied to the concrete three-task batch with a
shuffled completion order. -/
theorem c2_witness :
    (collectLoop c2tasks c2results c2order).processed_count = c2tasks.length ∧
    (collectLoop c2tasks c2results c2order).trace =
      c2order.map (fun i => (i, c2results i)) ∧
    ((collectLoop c2tasks c2results c2order).trace.map Prod.fst).Perm
      (List.range c2tasks.length) ∧
    (collectLoop c2tasks c2results c2order).table_rows =
      c2order.filterMap (fun i => rowOfRes (c2results i)) ∧
    (collectLoop c2tasks c2results c2order).error_reports =
      c2order.filterMap (fun i => diagOfTask (c2tasks.getD i dummyTask) (c2results i)) ∧
    (collectLoop c2tasks c2results c2order).error_reports.length =
      ((List.range c2tasks.length).filter
        (fun i => (diagOfTask (c2tasks.getD i dummyTask) (c2results i)).isSome)).length :=
  c2_theorem c2tasks c2results c2order (by decide)

/-! ## Stable sorter (src/query_all_issues.py 572-588)

sort_key returns a Python tuple whose second component is an int when the
suffix parses and the raw string otherwise; PyVal models that union.
Comparing an int key with a str key raises TypeError in Python, so the
corresponding pyValLt branch is unreachable in the theorems, which only
compare keys of the same kind. -/

inductive PyVal where
  | int (n : Int)
  | str (s : String)
deriving DecidableEq

/-- Python whitespace stripped by str.strip() and accepted by int(), on the
ASCII fragment. -/
def isPyWs (c : Char) : Bool :=
  c == ' ' || c == '\t' || c == '\n' || c == '\r' || c == '\x0b' || c == '\x0c'

def pyStrip (l : List Char) : List Char :=
  ((l.dropWhile isPyWs).reverse.dropWhile isPyWs).reverse

/-- Remaining digits of a Python int literal after its first digit: digits
with single underscores allowed strictly between digits. -/
def pyDigitsTail (acc : Nat) : List Char → Option Nat
  | [] => some acc
  | ['_'] => none
  | '_' :: c :: rest =>
    if c.isDigit then pyDigitsTail (acc * 10 + (c.toNat - 48)) rest else none
  | c :: rest =>
    if c.isDigit then pyDigitsTail (acc * 10 + (c.toNat - 48)) rest else none

/-- Model of Python int(s): surrounding whitespace, an optional sign, then
a nonempty digit sequence; none models the ValueError caught at
src/query_all_issues.py 582. -/
def pyIntParse (s : String) : Option Int :=
  match pyStrip s.data with
  | '-' :: c :: rest =>
    if c.isDigit then (pyDigitsTail (c.toNat - 48) rest).map (fun n => -(n : Int))
    else none
  | '+' :: c :: rest =>
    if c.isDigit then (pyDigitsTail (c.toNat - 48) rest).map (fun n => (n : Int))
    else none
  | c :: rest =>
    if c.isDigit then (pyDigitsTail (c.toNat - 48) rest).map (fun n => (n : Int))
    else none
  | [] => none

/-- Embedding of sort_key (src/query_all_issues.py 574-586): split the
identifier at the first dash; numeric suffixes sort as ints, unparseable
suffixes fall back to the raw string, dashless identifiers use (id, 0). -/
def sort_key (row : Row) : String × PyVal :=
  let linear_id := row.linear_id
  if linear_id.data.contains '-' then
    let pre := String.mk (linear_id.data.takeWhile (fun c => c != '-'))
    let number_str := String.mk ((linear_id.data.dropWhile (fun c => c != '-')).drop 1)
    match pyIntParse number_str with
    | some n => (pre, PyVal.int n)
    | none => (pre, PyVal.str number_str)
  else (linear_id, PyVal.int 0)

/-- Lexicographic code-point comparison, the Python < on strings. -/
def charsLt : List Char → List Char → Bool
  | [], [] => false
  | [], _ :: _ => true
  | _ :: _, [] => false
  | a :: as, b :: bs =>
    if a.toNat < b.toNat then true
    else if b.toNat < a.toNat then false
    else charsLt as bs

def strLt (a b : String) : Bool := charsLt a.data b.data

/-- Python < on the second tuple component.  An int/str mixed comparison
raises TypeError in Python; that branch is unreachable in the theorems
below, which compare keys of one kind only. -/
def pyValLt : PyVal → PyVal → Bool
  | PyVal.int a, PyVal.int b => decide (a < b)
  | PyVal.str a, PyVal.str b => strLt a b
  | _, _ => false

/-- Python tuple < on sort keys. -/
def keyLt (a b : String × PyVal) : Bool :=
  strLt a.1 b.1 || (a.1 == b.1 && pyValLt a.2 b.2)

def rowLe (r s : Row) : Bool := !(keyLt (sort_key s) (sort_key r))

/-- Stable insertion preserving the order of equal keys. -/
def insertRow (r : Row) : List Row → List Row
  | [] => [r]
  | s :: rest => if rowLe r s then r :: s :: rest else s :: insertRow r rest

/-- Model of table_rows.sort(key=sort_key) (src/query_all_issues.py 588): a
stable sort by the key comparison. -/
def pySortRows (rows : List Row) : List Row := rows.foldr insertRow []

lemma insertRow_perm (r : Row) : ∀ l : List Row, (insertRow r l).Perm (r :: l) := by
  intro l
  induction l with
  | nil => exact List.Perm.refl _
  | cons s rest ih =>
    rw [insertRow]
    by_cases h : rowLe r s
    · rw [if_pos h]
    · rw [if_neg h]
      exact (ih.cons s).trans (List.Perm.swap r s rest)

lemma pySortRows_perm : ∀ rows : List Row, (pySortRows rows).Perm rows := by
  intro rows
  induction rows with
  | nil => exact List.Perm.refl _
  | cons r rest ih => exact (insertRow_perm r (pySortRows rest)).trans (ih.cons r)

def rT3 : Row := ⟨"TEAM-3", blankS, blankS, blankS, blankS, blankS, blankS⟩

def rT29 : Row := ⟨"TEAM-29", blankS, blankS, blankS, blankS, blankS, blankS⟩

def rT289 : Row := ⟨"TEAM-289", blankS, blankS, blankS, blankS, blankS, blankS⟩

def rXb2 : Row := ⟨"X-2b", blankS, blankS, blankS, blankS, blankS, blankS⟩

def rXb10 : Row := ⟨"X-10b", blankS, blankS, blankS, blankS, blankS, blankS⟩

/-- C5: the sort key splits the identifier into prefix and trailing
suffix, numeric suffixes compare by value (TEAM-29 strictly precedes
TEAM-289 and the claimed triple sorts as stated), an unparseable suffix
falls back to the raw string and such identifiers order lexically within
their prefix group (X-10b before X-2b), and sorting permutes the row set. -/
theorem c5_theorem :
    (∀ rows : List Row, (pySortRows rows).Perm rows) ∧
    sort_key rT3 = ("TEAM", PyVal.int 3) ∧
    sort_key rT29 = ("TEAM", PyVal.int 29) ∧
    sort_key rT289 = ("TEAM", PyVal.int 289) ∧
    keyLt (sort_key rT29) (sort_key rT289) = true ∧
    keyLt (sort_key rT289) (sort_key rT29) = false ∧
    pySortRows [rT289, rT29, rT3] = [rT3, rT29, rT289] ∧
    sort_key rXb2 = ("X", PyVal.str ("2b")) ∧
    sort_key rXb10 = ("X", PyVal.str ("10b")) ∧
    pySortRows [rXb2, rXb10] = [rXb10, rXb2] :=
  ⟨pySortRows_perm, by decide, by decide, by decide, by decide, by decide,
   by decide, by decide, by decide, by decide⟩

/-! ## Reconciliation filter (src/query_all_issues.py 362-374 and 590-604) -/

/-- FILTERED_STATUS_PAIRS (src/query_all_issues.py 364-374). -/
def FILTERED_STATUS_PAIRS : List (String × String) :=
  [("done", "closed"), ("backlog", "open"), ("canceled", "closed"),
   ("in review", "open"), ("todo", "open"), ("in progress", "open"),
   ("duplicate", "closed"), ("will not fix", "closed"), ("triage", "open")]

/-- The membership test at src/query_all_issues.py 598-599. -/
def statusPairFiltered (row : Row) : Bool :=
  FILTERED_STATUS_PAIRS.contains (pyLower row.linear_status, pyLower row.gh_status)

/-- The filtering phase (src/query_all_issues.py 590-604): with show_all
every row is kept; otherwise rows whose lowercased status pair is in the
table are skipped. -/
def applyStatusFilter (show_all : Bool) (rows : List Row) : List Row :=
  if show_all then rows else rows.filter (fun r => !statusPairFiltered r)

def doneClosedRow : Row := ⟨"MOCO-10", "Done", blankS, "1", "Closed", blankS, "o/r"⟩

def todoClosedRow : Row := ⟨"MOCO-11", "Todo", blankS, "2", "Closed", blankS, "o/r"⟩

/-- C6: the default view excludes a row exactly when its lowercased
(primary-status, secondary-status) pair is in the fixed expected-pairs
table, the show-all override keeps every row, and on the claimed instances
a Done/Closed row is excluded by default yet kept under show-all while a
Todo/Closed row is kept by default. -/
theorem c6_theorem :
    (∀ rows : List Row, applyStatusFilter true rows = rows) ∧
    (∀ (rows : List Row) (r : Row),
      r ∈ applyStatusFilter false rows ↔
        r ∈ rows ∧
          FILTERED_STATUS_PAIRS.contains
            (pyLower r.linear_status, pyLower r.gh_status) = false) ∧
    statusPairFiltered doneClosedRow = true ∧
    statusPairFiltered todoClosedRow = false ∧
    applyStatusFilter false [doneClosedRow, todoClosedRow] = [todoClosedRow] ∧
    applyStatusFilter true [doneClosedRow, todoClosedRow] =
      [doneClosedRow, todoClosedRow] := by
  refine ⟨fun rows => rfl, ?_, by decide, by decide, by decide, by decide⟩
  intro rows r
  simp [applyStatusFilter, statusPairFiltered, List.mem_filter]

/-! ## Batch run (src/query_all_issues.py main, 376-649, and
src/env_config.py check_tokens, 69-88)

The run is modelled over an environment carrying all external behaviour:
the loaded tokens, the outcome of the team lookup (an exception or an
optional team), the outcome of the pagination loop (an exception or the
collected issues), the per-task results and the completion order.  Any
exception inside the try block is caught at src/query_all_issues.py 647-649
and turns into return 1, so a structural failure is an Except.error in the
environment.  Per-link behaviour is unconstrained, which is exactly what
the containment claims quantify over. -/

/-- Truthiness of an optional string, the Python test if not token: both a
missing value and an empty string are falsy. -/
def pyTruthyStr : Option String → Bool
  | none => false
  | some s => !s.isEmpty

structure ApiTokens where
  linear_token : Option String
  github_token : Option String
deriving DecidableEq

/-- check_tokens (src/env_config.py 69-88): only the Linear token is
required; the GitHub token is not inspected here. -/
def check_tokens (linear_token : Option String) (github_token : Option String) : Bool :=
  pyTruthyStr linear_token

structure Team where
  id : String
  name : String
  key : String
deriving DecidableEq

structure BatchEnv where
  tokens : ApiTokens
  lookup : Except Unit (Option Team)
  fetch : Except Unit (List IssueData)
  linkResults : Nat → TaskRes
  order : List Nat
  show_all : Bool

/-- Phase 1 (src/query_all_issues.py 503-514): one task per issue whose
first attachment link extraction succeeds. -/
def taskOfIssue (d : IssueData) : Option GithubTask :=
  (extract_first_attachment_github_link d).map (fun l =>
    ⟨d.identifier, d.state_name, d.title, l.1, l.2.1, l.2.2⟩)

def batchTasks (issues : List IssueData) : List GithubTask :=
  issues.filterMap taskOfIssue

structure BatchResult where
  exit_code : Nat
  max_workers : Option Nat
  table_rows : List Row
  error_reports : List String
  processed_count : Nat
deriving DecidableEq

/-- Result of every return 1 path: missing credential
(src/query_all_issues.py 446-447), team not found (459-464), or an
exception caught by the top-level handler (647-649) before the pool is
created. -/
def batchFailure : BatchResult := ⟨1, none, [], [], 0⟩

/-- Embedding of main (src/query_all_issues.py 440-649) at the granularity
the claims need: token check, team lookup, pagination, task extraction,
worker-pool sizing (527), the dispatch-and-collect fold, sorting and status
filtering, exit code 0 on completion. -/
def mainRun (env : BatchEnv) : BatchResult :=
  if check_tokens env.tokens.linear_token env.tokens.github_token then
    match env.lookup with
    | Except.error _ => batchFailure
    | Except.ok none => batchFailure
    | Except.ok (some _team) =>
      match env.fetch with
      | Except.error _ => batchFailure
      | Except.ok all_issues =>
        let github_tasks := batchTasks all_issues
        let max_workers := if pyTruthyStr env.tokens.github_token then 10 else 5
        let out := collectLoop github_tasks env.linkResults env.order
        let finalRows := applyStatusFilter env.show_all (pySortRows out.table_rows)
        ⟨0, some max_workers, finalRows, out.error_reports, out.processed_count⟩
  else batchFailure

/-- The run reaches phase 2: the team lookup returned a team and pagination
returned without raising. -/
def structuralOk (env : BatchEnv) : Prop :=
  (∃ t, env.lookup = Except.ok (some t)) ∧ (∃ issues, env.fetch = Except.ok issues)

/-- C8: per-link failures are contained while structural failures escalate.
With valid credentials and successful team lookup and pagination the run
exits 0 whatever the per-link results are — any mix of not_found,
rate_limited, error and raised exceptions — and each such failure is
captured as one diagnostic entry in order; if instead the team lookup
raises, resolves no team, or pagination raises, the run exits 1. -/
theorem c8_theorem (env : BatchEnv) :
    (check_tokens env.tokens.linear_token env.tokens.github_token = true →
      structuralOk env →
        (mainRun env).exit_code = 0 ∧
        (∀ issues, env.fetch = Except.ok issues →
          (mainRun env).error_reports = env.order.filterMap
            (fun i => diagOfTask ((batchTasks issues).getD i dummyTask)
              (env.linkResults i)))) ∧
    ((env.lookup = Except.error () ∨ env.lookup = Except.ok none ∨
        env.fetch = Except.error ()) →
      (mainRun env).exit_code = 1) := by
  constructor
  · intro htok hok
    obtain ⟨⟨t, hlook⟩, ⟨issues, hfetch⟩⟩ := hok
    constructor
    · simp [mainRun, htok, hlook, hfetch]
    · intro issues2 hfetch2
      rw [hfetch] at hfetch2
      cases hfetch2
      have hcoll := collect_fields (batchTasks issues) env.linkResults env.order
        ⟨[], 0, 0, [], []⟩
      simp [mainRun, htok, hlook, hfetch, collectLoop, hcoll]
  · intro hbad
    by_cases htok : check_tokens env.tokens.linear_token env.tokens.github_token = true
    · rcases hbad with hb | hb | hb
      · simp [mainRun, htok, hb, batchFailure]
      · simp [mainRun, htok, hb, batchFailure]
      · cases hlook : env.lookup with
        | error u => simp [mainRun, htok, hlook, batchFailure]
        | ok oteam =>
          cases oteam with
          | none => simp [mainRun, htok, hlook, batchFailure]
          | some t => simp [mainRun, htok, hlook, hb, batchFailure]
    · have htok2 : check_tokens env.tokens.linear_token env.tokens.github_token = false := by
        revert htok
        cases check_tokens env.tokens.linear_token env.tokens.github_token <;> simp
      simp [mainRun, htok2, batchFailure]

/-- C9: an absent (or empty) primary-tracker token makes the run return the
constant failure result with exit code 1 — the result does not depend on
the lookup, pagination, or per-link components of the environment, so the
run fails before any network activity — while with valid credentials and
structural success the run exits 0 and only the worker-pool size depends on
the secondary-tracker token: 10 workers with a nonempty token, 5 without. -/
theorem c9_theorem (env : BatchEnv) :
    (pyTruthyStr env.tokens.linear_token = false → mainRun env = batchFailure) ∧
    (check_tokens env.tokens.linear_token env.tokens.github_token = true →
      structuralOk env →
        (mainRun env).exit_code = 0 ∧
        (mainRun env).max_workers =
          some (if pyTruthyStr env.tokens.github_token then 10 else 5) ∧
        (env.tokens.github_token = none → (mainRun env).max_workers = some 5) ∧
        (∀ t, env.tokens.github_token = some t → t.isEmpty = false →
          (mainRun env).max_workers = some 10)) := by
  constructor
  · intro hfalsy
    have htok : check_tokens env.tokens.linear_token env.tokens.github_token = false :=
      hfalsy
    simp [mainRun, htok]
  · intro htok hok
    obtain ⟨⟨t, hlook⟩, ⟨issues, hfetch⟩⟩ := hok
    refine ⟨by simp [mainRun, htok, hlook, hfetch], ?_, ?_, ?_⟩
    · simp [mainRun, htok, hlook, hfetch]
    · intro hgh
      have htok2 : pyTruthyStr env.tokens.linear_token = true := htok
      have hgf : pyTruthyStr env.tokens.github_token = false := by
        rw [hgh]
        rfl
      simp [mainRun, check_tokens, htok2, hlook, hfetch, hgf]
    · intro s hgh hne
      have htok2 : pyTruthyStr env.tokens.linear_token = true := htok
      have hgt : pyTruthyStr env.tokens.github_token = true := by
        rw [hgh]
        show (!s.isEmpty) = true
        rw [hne]
        rfl
      simp [mainRun, check_tokens, htok2, hlook, hfetch, hgt]

def team0 : Team := ⟨"id0", "MojoCompiler", "MOCO"⟩

def wIssue : IssueData :=
  ⟨"MOCO-9", "Todo", "title",
   some [⟨some ("https://github.com/o/x/issues/5"), none⟩], none⟩

def envOk : BatchEnv :=
  ⟨⟨some ("lin"), none⟩, Except.ok (some team0), Except.ok [wIssue],
   fun _ => TaskRes.res none Outcome.not_found, [0], false⟩

def envBad : BatchEnv :=
  ⟨⟨some ("lin"), none⟩, Except.error (), Except.ok [],
   fun _ => TaskRes.res none Outcome.error, [], false⟩

def envTok : BatchEnv :=
  ⟨⟨none, some ("gh")⟩, Except.ok (some team0), Except.ok [],
   fun _ => TaskRes.res none Outcome.error, [], false⟩

def envGh : BatchEnv :=
  ⟨⟨some ("lin"), some ("gh")⟩, Except.ok (some team0), Except.ok [],
   fun _ => TaskRes.res none Outcome.error, [], false⟩

/-- C8 witness: a run whose single link resolves not_found exits 0 with
exactly that diagnostic recorded, and a run whose team lookup raises exits
1. -/
theorem c8_witness :
    ((mainRun envOk).exit_code = 0 ∧
      (mainRun envOk).error_reports = envOk.order.filterMap
        (fun i => diagOfTask ((batchTasks [wIssue]).getD i dummyTask)
          (envOk.linkResults i))) ∧
    (mainRun envBad).exit_code = 1 := by
  have h := (c8_theorem envOk).1 rfl ⟨⟨team0, rfl⟩, ⟨[wIssue], rfl⟩⟩
  exact ⟨⟨h.1, h.2 [wIssue] rfl⟩, (c8_theorem envBad).2 (Or.inl rfl)⟩

/-- C9 witness: a run without the Linear token fails outright, and the
worker pool is 5 without a GitHub token and 10 with one. -/
theorem c9_witness :
    mainRun envTok = batchFailure ∧
    (mainRun envOk).exit_code = 0 ∧
    (mainRun envOk).max_workers = some 5 ∧
    (mainRun envGh).max_workers = some 10 := by
  have hOk := (c9_theorem envOk).2 rfl ⟨⟨team0, rfl⟩, ⟨[wIssue], rfl⟩⟩
  have hGh := (c9_theorem envGh).2 rfl ⟨⟨team0, rfl⟩, ⟨[], rfl⟩⟩
  exact ⟨(c9_theorem envTok).1 rfl, hOk.1, hOk.2.2.1 rfl,
    hGh.2.2.2 ("gh") rfl rfl⟩

end LGC
